import Mathlib

/-!
Shallow embedding of bwesterb/pq-tester.

The repository holds two Go server variants plus a static HTML front-end:

* the TAI-aware variant (`src/main.go`, first part): a landmark/TAI resolver
  (`fetchLandmark`, `getLatestTAI`), an MTC certificate inspector (`isMTC`),
  the post-quantum classifier (`isPQ`), and two transport probes
  (`testTCP`, `testQUIC`) producing a `transportResult`;
* the client-probe variant (second part of `src/main.go`): a per-connection
  handshake event sink (`Conn.eventHandler`) and an HTTP handler that dials
  the remote with one of two fixed curve orders selected by the `method`
  form value;
* the front-end (`src/unnamed/part_000`): a JavaScript lookup table `kexLut`
  mapping group identifiers to a (post-quantum flag, display name) pair.

Machine integers (`tls.CurveID`, ASN.1 OID arcs, TAI segments) are embedded
as `Nat`; none of the code relies on overflow.  Fallible steps performed by
external collaborators (the network, the TLS stack of Cloudflare's Go fork,
`encoding/asn1`) are passed in as explicit `Except`/`Option`-valued
parameters, so each probe is a pure function of the outcomes of its
network/library calls, exactly mirroring the source's control flow on them.
-/

/-! ## Key-exchange group identifiers

Numeric values are the ones the repository itself records in `kexLut`
(`src/unnamed/part_000`, lines 65-75): 23 = P-256, 24 = P-384, 29 = X25519,
65072/65073/65074 = Kyber draft hybrids, 25497 = X25519Kyber768Draft00,
4588 = X25519MLKEM768. -/

def CurveP256 : Nat := 23

def CurveP384 : Nat := 24

def CurveP521 : Nat := 25

def X25519 : Nat := 29

def X25519Kyber512Draft00 : Nat := 65072

def X25519Kyber768Draft00Old : Nat := 65073

def P256Kyber768Draft00 : Nat := 65074

def X25519Kyber768Draft00 : Nat := 25497

def X25519MLKEM768 : Nat := 4588

/-- Embeds `isPQ` (src/main.go lines 136-142): a `switch` returning `true`
for `tls.X25519MLKEM768` only and falling through to `false` otherwise. -/
def isPQ (kex : Nat) : Bool :=
  if kex = X25519MLKEM768 then true else false

/-- Embeds the JavaScript object literal `kexLut`
(src/unnamed/part_000 lines 65-75) as a partial map from group identifier to
(post-quantum flag, display name).  The object literal writes the key `24`
twice (`24: [false, "P-384"]` then `24: [false, "P-521"]`); in JavaScript
the later binding wins, so `24` maps to `"P-521"` here. -/
def kexLut (k : Nat) : Option (Bool × String) :=
  if k = 23 then some (false, "P-256")
  else if k = 24 then some (false, "P-521")
  else if k = 29 then some (false, "X25519")
  else if k = 65072 then some (true, "X25519Kyber512Draft00")
  else if k = 65073 then some (true, "X25519Kyber768Draft00Old")
  else if k = 65074 then some (true, "P256Kyber768Draft00")
  else if k = 25497 then some (true, "X25519Kyber768Draft00")
  else if k = 4588 then some (true, "X25519MLKEM768")
  else none

/-! ## Trust anchor identifiers -/

/-- Modelled from the spec: `tls.TrustAnchorIdentifier` is provided by
Cloudflare's Go fork (the `bas/tai` branch named in src/main.go line 25),
which is not part of this repository.  The spec describes a TAI as "a
structured, dotted-segment identifier (e.g., `44363.48.7.<n>`) with a
canonical text encoding and parse/format round-trip". -/
structure TAI where
  segments : List Nat
deriving DecidableEq

/-- Splitting a character list at every occurrence of a separator, the
semantics of Go's `strings.Split` (and of splitting on a one-character
separator generally): the empty input yields one empty field. -/
def splitOnChar (sep : Char) : List Char → List (List Char)
  | [] => [[]]
  | c :: cs =>
    let rest := splitOnChar sep cs
    if c = sep then [] :: rest
    else
      match rest with
      | [] => [[c]]
      | r :: rs => (c :: r) :: rs

/-- The numeric value of a run of decimal digits. -/
def digitsVal (p : List Char) : Nat :=
  p.foldl (fun a ch => a * 10 + (ch.toNat - 48)) 0

/-- Modelled from the spec: the text form of
`tls.TrustAnchorIdentifier.UnmarshalText` (external Go fork) is the
canonical dotted-decimal segment encoding; any other shape fails to parse. -/
def TAI.unmarshalText (s : String) : Option TAI :=
  let parts := splitOnChar '.' s.data
  if parts.all (fun p => !p.isEmpty && p.all Char.isDigit) then
    some { segments := parts.map digitsVal }
  else
    none

/-- Modelled from the spec: `tls.TrustAnchorIdentifier.String` (external Go
fork) renders the canonical dotted-decimal text encoding of the segments. -/
def TAI.string (t : TAI) : String :=
  String.intercalate "." (t.segments.map (fun n => toString n))

/-! ## Landmark/TAI resolver (src/main.go lines 37-101) -/

/-- Embeds the constant `mtcBaseTAI` (src/main.go line 38). -/
def mtcBaseTAI : String := "44363.48.7"

/-- Embeds the process-wide landmark state (src/main.go lines 41-44); the
`sync.RWMutex` is a concurrency primitive, so reads and the single writer
are modelled as explicit state passing. -/
structure LandmarkState where
  latestTAI : TAI
deriving DecidableEq

/-- Embeds `getLatestTAI` (src/main.go lines 97-101): a read of the shared
latest-TAI value under the read lock. -/
def getLatestTAI (st : LandmarkState) : TAI :=
  st.latestTAI

/-- Accumulator pass of `stringsFields`: `acc` holds the characters of the
field being read, in reverse. -/
def stringsFieldsAux : List Char → List Char → List String
  | [], acc => if acc.isEmpty then [] else [⟨acc.reverse⟩]
  | c :: cs, acc =>
    if c.isWhitespace then
      if acc.isEmpty then stringsFieldsAux cs []
      else ⟨acc.reverse⟩ :: stringsFieldsAux cs []
    else
      stringsFieldsAux cs (c :: acc)

/-- Embeds `strings.Fields` from the Go standard library (called by
`fetchLandmark`): splits around runs of whitespace, with no empty fields. -/
def stringsFields (s : String) : List String :=
  stringsFieldsAux s.data []

/-- Embeds `strconv.Atoi` from the Go standard library (called by
`fetchLandmark`): an optional sign followed by at least one decimal digit.
(Go's 64-bit range error on overflow is dropped: the parsed landmark indices
are small.) -/
def strconvAtoi (s : String) : Option Int :=
  match s.data with
  | [] => none
  | c :: cs =>
    let signDigits : Bool × List Char :=
      if c = '-' then (true, cs)
      else if c = '+' then (false, cs)
      else (false, c :: cs)
    if signDigits.2 = [] then none
    else if signDigits.2.all Char.isDigit then
      let n : Nat := signDigits.2.foldl (fun a ch => a * 10 + (ch.toNat - 48)) 0
      some (if signDigits.1 then -(n : Int) else (n : Int))
    else none

/-- Embeds `strings.TrimSpace` from the Go standard library: drop
whitespace from both ends. -/
def stringsTrimSpace (s : String) : String :=
  ⟨((s.data.dropWhile Char.isWhitespace).reverse.dropWhile Char.isWhitespace).reverse⟩

/-- Embeds the first-line extraction of `fetchLandmark` (src/main.go
line 63): `strings.Cut(strings.TrimSpace(string(body)), "\n")` keeps the
part before the first newline (the whole trimmed body when there is none). -/
def landmarkFirstLine (body : String) : String :=
  ⟨(stringsTrimSpace body).data.takeWhile (fun c => c != '\n')⟩

/-- Embeds the body-processing part of `fetchLandmark` (src/main.go lines
62-86), after the HTTP fetch has produced `body`: parse the first line's
fields, require exactly two, `Atoi` the first, build the TAI text
`44363.48.7.<lastLandmark>` with `fmt.Sprintf("%s.%d", ...)`, unmarshal it,
and only then overwrite the shared latest-TAI.  Returns the new state and
the error (`none` = success); on every error path the state is returned
unchanged. -/
def fetchLandmark (body : String) (st : LandmarkState) : LandmarkState × Option String :=
  if (stringsFields (landmarkFirstLine body)).length ≠ 2 then
    (st, some ("invalid landmark header: " ++ landmarkFirstLine body))
  else
    match strconvAtoi ((stringsFields (landmarkFirstLine body)).headD "") with
    | none => (st, some "invalid last_landmark")
    | some lastLandmark =>
      match TAI.unmarshalText (mtcBaseTAI ++ "." ++ toString lastLandmark) with
      | none => (st, some ("parsing TAI " ++ mtcBaseTAI ++ "." ++ toString lastLandmark))
      | some tai => ({ latestTAI := tai }, none)

/-! ## Certificate signature inspector (src/main.go lines 33-35, 103-128) -/

/-- Embeds `oidMTCProof` (src/main.go line 35): the ASN.1 object identifier
1.3.6.1.4.1.44363.47.0. -/
def oidMTCProof : List Nat := [1, 3, 6, 1, 4, 1, 44363, 47, 0]

/-- Embeds `asn1.RawValue` as the `FullBytes` it carries (the only field
`isMTC` reads). -/
structure RawValue where
  fullBytes : List Nat
deriving DecidableEq

/-- Embeds the anonymous `TBSCertificate` struct of `isMTC` (src/main.go
lines 109-113). -/
structure RawTBSCertificate where
  version : RawValue
  serialNumber : RawValue
  signatureAlgorithm : RawValue
deriving DecidableEq

/-- Embeds the anonymous `rawCert` struct of `isMTC` (src/main.go lines
108-115): the TBS certificate followed by the outer signature algorithm. -/
structure RawCertificate where
  tbsCertificate : RawTBSCertificate
  signatureAlgorithm : RawValue
deriving DecidableEq

/-- Embeds the anonymous `algID` struct of `isMTC` (src/main.go lines
120-122): an `AlgorithmIdentifier` whose first component is the OID. -/
structure AlgorithmIdentifier where
  algorithm : List Nat
deriving DecidableEq

/-- Embeds `isMTC` (src/main.go lines 105-128).  The two `asn1.Unmarshal`
calls belong to Go's `encoding/asn1` standard library (an external
collaborator in the spec), so they are passed in as `Option`-valued
parameters; `cert.Raw` (the DER bytes of the certificate) is the `raw`
argument.  Both parse failures return `false`; otherwise the outer signature
algorithm OID is compared with `oidMTCProof`. -/
def isMTC (unmarshalCert : List Nat → Option RawCertificate)
    (unmarshalAlgID : List Nat → Option AlgorithmIdentifier)
    (raw : List Nat) : Bool :=
  match unmarshalCert raw with
  | none => false
  | some rawCert =>
    match unmarshalAlgID rawCert.signatureAlgorithm.fullBytes with
    | none => false
    | some algID => algID.algorithm == oidMTCProof

/-! ## Transport probes (src/main.go lines 144-233) -/

/-- Embeds the part of `tls.ConnectionState` the probes read: the negotiated
group, the peer's trust anchor identifiers (a Go nil slice is `none`, a
non-nil slice is `some`), and the peer certificates as raw DER bytes. -/
structure ConnectionState where
  curveID : Nat
  trustAnchorIdentifiers : Option (List TAI)
  peerCertificates : List (List Nat)

/-- Embeds `taisFromState` (src/main.go lines 152-161): `nil` in, `nil` out;
otherwise start from the non-nil empty slice `[]string{}` and append each
TAI's string form. -/
def taisFromState (state : ConnectionState) : Option (List String) :=
  match state.trustAnchorIdentifiers with
  | none => none
  | some ts => some (ts.foldl (fun acc tai => acc ++ [TAI.string tai]) [])

/-- Embeds the fields of `tls.Config` that the repository sets (anything it
leaves at the Go zero value is the corresponding empty value here). -/
structure TLSConfig where
  serverName : String
  insecureSkipVerify : Bool
  nextProtos : List String
  trustAnchorIdentifiers : List TAI
  curvePreferences : List Nat
deriving DecidableEq

/-- Embeds the `tls.Config` literal of `testTCP` (src/main.go lines
171-175): `ServerName`, `InsecureSkipVerify: true` (the `insecure` argument
of `testTCP` is not consulted there), and a single-element
`TrustAnchorIdentifiers` slice holding the resolver value. -/
def testTCPConfig (serverName : String) (insecure : Bool) (latestTAI : TAI) : TLSConfig :=
  { serverName := serverName
    insecureSkipVerify := true
    nextProtos := []
    trustAnchorIdentifiers := [latestTAI]
    curvePreferences := [] }

/-- Embeds the `tls.Config` literal of `testQUIC` (src/main.go lines
209-214): as `testTCPConfig` plus `NextProtos: []string{"h3"}`; again
`InsecureSkipVerify` is the literal `true`, independent of the `insecure`
argument. -/
def testQUICConfig (serverName : String) (insecure : Bool) (latestTAI : TAI) : TLSConfig :=
  { serverName := serverName
    insecureSkipVerify := true
    nextProtos := ["h3"]
    trustAnchorIdentifiers := [latestTAI]
    curvePreferences := [] }

/-- Embeds `transportResult` (src/main.go lines 144-150) with Go zero values
as field defaults, exactly what `transportResult{Error: ...}` leaves in the
other fields. -/
structure transportResult where
  Kex : Nat := 0
  PQ : Bool := false
  TAIs : Option (List String) := none
  MTC : Bool := false
  Error : String := ""

/-- Outcomes of the external network and TLS-stack calls a probe makes; each
field stands for one fallible collaborator call, keyed by the argument the
source passes it. -/
structure NetEnv where
  landmark : LandmarkState
  dialTCP : String → Except String Unit
  handshakeTLS : TLSConfig → Except String ConnectionState
  resolveUDPAddr : String → Except String Unit
  listenUDP : Except String Unit
  dialQUIC : TLSConfig → Except String ConnectionState
  unmarshalCert : List Nat → Option RawCertificate
  unmarshalAlgID : List Nat → Option AlgorithmIdentifier

/-- Embeds `testTCP` (src/main.go lines 163-192): dial (failure tagged
`dial: `), handshake with the config of `testTCPConfig` built around
`getLatestTAI` (failure tagged `handshake: `), then on success fill `Kex`,
`PQ`, `TAIs`, and — only when at least one peer certificate is present —
`MTC` from `isMTC` on the leaf certificate. -/
def testTCP (env : NetEnv) (remote serverName : String) (insecure : Bool) : transportResult :=
  match env.dialTCP remote with
  | .error e => { Error := "dial: " ++ e }
  | .ok _ =>
    match env.handshakeTLS (testTCPConfig serverName insecure (getLatestTAI env.landmark)) with
    | .error e => { Error := "handshake: " ++ e }
    | .ok state =>
      { Kex := state.curveID
        PQ := isPQ state.curveID
        TAIs := taisFromState state
        MTC := match state.peerCertificates with
          | [] => false
          | c :: _ => isMTC env.unmarshalCert env.unmarshalAlgID c }

/-- Embeds `testQUIC` (src/main.go lines 194-233): resolve the UDP address
(failure tagged `resolve: `), bind a UDP socket (failure tagged
`listen udp: `), dial the QUIC session, which performs the TLS handshake,
with the config of `testQUICConfig` (failure tagged `dial: `), then fill
the same success fields as `testTCP`. -/
def testQUIC (env : NetEnv) (remote serverName : String) (insecure : Bool) : transportResult :=
  match env.resolveUDPAddr remote with
  | .error e => { Error := "resolve: " ++ e }
  | .ok _ =>
    match env.listenUDP with
    | .error e => { Error := "listen udp: " ++ e }
    | .ok _ =>
      match env.dialQUIC (testQUICConfig serverName insecure (getLatestTAI env.landmark)) with
      | .error e => { Error := "dial: " ++ e }
      | .ok state =>
        { Kex := state.curveID
          PQ := isPQ state.curveID
          TAIs := taisFromState state
          MTC := match state.peerCertificates with
            | [] => false
            | c :: _ => isMTC env.unmarshalCert env.unmarshalAlgID c }

/-! ## Probe deadlines (src/main.go lines 163-233)

Neither probe configures any timeout or deadline: `testTCP` dials with
`net.Dial` (line 164; no `net.Dialer.Timeout`) and handshakes with
`conn.Handshake()` (line 178; no prior `SetDeadline`); `testQUIC` dials
with `ctx := context.Background()` (line 216), which carries no deadline.
These records transcribe exactly those configured values. -/

structure ProbeDeadlines where
  dialTimeout : Option Nat
  handshakeDeadline : Option Nat
  contextDeadline : Option Nat
deriving DecidableEq

/-- Deadline parameters the source passes on the `testTCP` path: none. -/
def testTCPDeadlines : ProbeDeadlines :=
  { dialTimeout := none, handshakeDeadline := none, contextDeadline := none }

/-- Deadline parameters the source passes on the `testQUIC` path: none (the
`quic.Config{}` zero value delegates to library defaults; the probe itself
sets nothing). -/
def testQUICDeadlines : ProbeDeadlines :=
  { dialTimeout := none, handshakeDeadline := none, contextDeadline := none }

/-! ## Client-probe variant (second part of src/main.go) -/

/-- Embeds the `tls.CFEvent` values the sink distinguishes
(src/main.go lines 374-381): the two cases of the `switch`, plus a catch-all
for every other event the Cloudflare TLS stack may emit. -/
inductive CFEvent where
  | hrr : CFEvent
  | negotiatedKEX : Nat → CFEvent
  | other : CFEvent
deriving DecidableEq

/-- Embeds the per-connection `Conn` struct (src/main.go lines 369-372) with
Go zero values as defaults. -/
structure Conn where
  kex : Nat := 0
  hrr : Bool := false
deriving DecidableEq

/-- Embeds `Conn.eventHandler` (src/main.go lines 374-381): an HRR event
sets the `hrr` flag, a negotiated-KEX event stores the group, anything else
is ignored. -/
def Conn.eventHandler (c : Conn) (ev : CFEvent) : Conn :=
  match ev with
  | .hrr => { c with hrr := true }
  | .negotiatedKEX k => { c with kex := k }
  | .other => c

/-- The handshake delivers its events to the registered sink in order; the
per-connection state is the fold of `Conn.eventHandler` over that trace. -/
def Conn.processEvents (c : Conn) (evs : List CFEvent) : Conn :=
  evs.foldl Conn.eventHandler c

/-- Embeds the JSON body of the plain (non-POST) branch of the client-probe
`handler` (src/main.go lines 476-486). -/
structure PlainResponse where
  Kex : Nat
  HRR : Bool
deriving DecidableEq

/-- Embeds the plain (non-POST) branch of the client-probe `handler`
(src/main.go lines 476-486): read the `*Conn` stored in the connection
context and report its recorded fields verbatim. -/
def clientGET (c : Conn) : PlainResponse :=
  { Kex := c.kex, HRR := c.hrr }

/-- The group carried by a negotiated-KEX event, if any. -/
def CFEvent.kexOf : CFEvent → Option Nat
  | .negotiatedKEX k => some k
  | _ => none

/-- Embeds the `method` dispatch of the client-probe `handler` (src/main.go
lines 419-441): the curve list starts as the classical-first order; method
`"supported"` keeps it, `"preferred"` or the empty value replaces it with
the PQ-first order, and any other value is the `unknown method` error
(`none` here). -/
def selectCurves (method : String) : Option (List Nat) :=
  if method = "supported" then
    some [X25519, CurveP256, CurveP384, X25519Kyber768Draft00, X25519MLKEM768]
  else if method = "preferred" ∨ method = "" then
    some [X25519MLKEM768, X25519Kyber768Draft00, X25519, CurveP256, CurveP384]
  else
    none

/-- Embeds the `tls.Config` literal of the client-probe `handler`
(src/main.go lines 449-453): here `InsecureSkipVerify` is the `insecure`
form value. -/
def clientTLSConfig (curves : List Nat) (serverName : String) (insecure : Bool) : TLSConfig :=
  { serverName := serverName
    insecureSkipVerify := insecure
    nextProtos := []
    trustAnchorIdentifiers := []
    curvePreferences := curves }

/-- Outcomes of the external calls the client-probe POST branch makes:
`net.SplitHostPort` (returning the host on success), the TCP dial, and the
TLS handshake, which on success delivers the trace of `tls.CFEvent`s to the
registered sink. -/
structure ClientEnv where
  splitHostPort : String → Except String String
  dialTCP : String → Except String Unit
  handshake : TLSConfig → Except String (List CFEvent)

/-- Responses of the client-probe POST branch: every `errResp(w, 400, ...)`
is a `badRequest`, the success path is the JSON `{Kex, HRR, Remote}`. -/
inductive ClientResponse where
  | badRequest : String → ClientResponse
  | json : Nat → Bool → String → ClientResponse
deriving DecidableEq

/-- Embeds the POST branch of the client-probe `handler` (src/main.go lines
391-474) given the form values: split the remote (failure is a 400), dial
(failure is a 400), select the curve order from `method` (unknown method is
the 400 before any handshake), compute the SNI name, handshake with the
config of `clientTLSConfig` (failure is a 400), and reply with the fields
the event sink recorded on the fresh per-request `Conn`. -/
def clientPOST (env : ClientEnv) (remote method servername : String) (insecure : Bool) : ClientResponse :=
  match env.splitHostPort remote with
  | .error e => .badRequest ("can't parse remote: " ++ e)
  | .ok remoteHost =>
    match env.dialTCP remote with
    | .error e => .badRequest ("can't dial: " ++ e)
    | .ok _ =>
      match selectCurves method with
      | none => .badRequest "unknown method"
      | some curves =>
        match env.handshake (clientTLSConfig curves (if servername != "" then servername else remoteHost) insecure) with
        | .error e => .badRequest ("handshake: " ++ e)
        | .ok evs =>
          .json (Conn.processEvents {} evs).kex (Conn.processEvents {} evs).hrr remote

/-- Success of an external call, as the source's `err != nil` checks see it. -/
def exceptOk {α : Type} (r : Except String α) : Bool :=
  match r with
  | .ok _ => true
  | .error _ => false

/-- An error string carrying one of the probes' failure-stage tags at its
head. -/
def stageTagged (s : String) : Prop :=
  ∃ stage rest, stage ∈ (["resolve", "listen", "dial", "handshake"] : List String) ∧
    s = stage ++ rest

/-! ## Helper lemmas -/

lemma string_append_ne_empty (a b : String) (h : a ≠ "") : a ++ b ≠ "" := by
  intro hab
  apply h
  have h2 := congrArg String.data hab
  rw [String.data_append] at h2
  exact String.ext (List.append_eq_nil.mp h2).1

lemma string_append_split (a b c e : String) (h : a ++ b = c) : c ++ e = a ++ (b ++ e) := by
  rw [← h, String.append_assoc]

lemma foldl_append_string (ts : List TAI) (acc : List String) :
    ts.foldl (fun acc tai => acc ++ [TAI.string tai]) acc = acc ++ ts.map TAI.string := by
  induction ts generalizing acc with
  | nil => simp
  | cons a t ih => simp [ih]

lemma processEvents_cons (c : Conn) (e : CFEvent) (evs : List CFEvent) :
    Conn.processEvents c (e :: evs) = Conn.processEvents (c.eventHandler e) evs := rfl

lemma processEvents_hrr (evs : List CFEvent) (c : Conn) :
    (Conn.processEvents c evs).hrr = true ↔ (c.hrr = true ∨ CFEvent.hrr ∈ evs) := by
  induction evs generalizing c with
  | nil => simp [Conn.processEvents]
  | cons e rest ih =>
    rw [processEvents_cons]
    cases e <;> simp [Conn.eventHandler, ih]

lemma getLastD_cons (l : List Nat) : ∀ k d : Nat, ((k :: l).getLast?).getD d = (l.getLast?).getD k := by
  induction l with
  | nil => intro k d; rfl
  | cons a t ih =>
    intro k d
    rw [List.getLast?_cons_cons, ih a d, ih a k]

lemma processEvents_kex (evs : List CFEvent) (c : Conn) :
    (Conn.processEvents c evs).kex = ((evs.filterMap CFEvent.kexOf).getLast?).getD c.kex := by
  induction evs generalizing c with
  | nil => simp [Conn.processEvents]
  | cons e rest ih =>
    rw [processEvents_cons]
    cases e with
    | hrr => simpa [Conn.eventHandler, CFEvent.kexOf] using ih _
    | other => simpa [Conn.eventHandler, CFEvent.kexOf] using ih _
    | negotiatedKEX k =>
      rw [ih]
      simp [Conn.eventHandler, CFEvent.kexOf, getLastD_cons]

/-! ## Claims -/

/-- Claim C1, counterexample: the classification table `kexLut` cited by the
claim assigns the post-quantum flag `true` to the historical draft hybrid
X25519Kyber768Draft00 (identifier 25497), so the classification does not
return `false` for every historical draft hybrid, and `true` is not returned
for exactly one identifier. -/
theorem kexLut_draft_hybrid_true :
    kexLut X25519Kyber768Draft00 = some (true, "X25519Kyber768Draft00") ∧
    kexLut X25519Kyber512Draft00 = some (true, "X25519Kyber512Draft00") ∧
    kexLut P256Kyber768Draft00 = some (true, "P256Kyber768Draft00") := by
  refine ⟨?_, ?_, ?_⟩ <;> decide

/-- Claim C1 (amended): the server-side classification `isPQ` is total and
deterministic over all group identifiers and returns `true` for exactly one
identifier, the finalized standardized hybrid X25519MLKEM768, and `false`
for every other identifier, the historical draft hybrids and every unknown
integer included; the front-end table `kexLut`, by contrast, carries the
flag `true` on every hybrid entry, the historical drafts included. -/
theorem isPQ_true_iff_mlkem768 :
    (∀ k : Nat, isPQ k = true ↔ k = X25519MLKEM768) ∧
    (∀ k : Nat, (kexLut k).map Prod.fst = some true ↔
      k ∈ ([X25519Kyber512Draft00, X25519Kyber768Draft00Old, P256Kyber768Draft00,
        X25519Kyber768Draft00, X25519MLKEM768] : List Nat)) := by
  constructor
  · intro k
    simp [isPQ]
  · intro k
    simp only [kexLut, X25519Kyber512Draft00, X25519Kyber768Draft00Old, P256Kyber768Draft00,
      X25519Kyber768Draft00, X25519MLKEM768]
    split_ifs with h1 h2 h3 h4 h5 h6 h7 h8 <;> subst_vars <;> simp_all

/-- Claim C3, counterexample: a TAI-aware probe performed for a request
without the insecure flag still skips chain validation — the configs built
by `testTCP` and `testQUIC` set `InsecureSkipVerify` to the literal `true`
even when the `insecure` argument is `false`. -/
theorem testTCPConfig_insecure_ignored :
    (testTCPConfig "example.com" false ⟨[44363, 48, 7, 5]⟩).insecureSkipVerify = true ∧
    (testQUICConfig "example.com" false ⟨[44363, 48, 7, 5]⟩).insecureSkipVerify = true :=
  ⟨rfl, rfl⟩

/-- Claim C3 (amended): in the client-probe variant the TLS config skips
chain validation exactly when the request's insecure flag is present, while
the TAI-aware variant's probes (`testTCP`, `testQUIC`) always skip chain
validation, regardless of the flag. -/
theorem insecureSkipVerify_by_variant (curves : List Nat) (serverName : String)
    (insecure : Bool) (tai : TAI) :
    (clientTLSConfig curves serverName insecure).insecureSkipVerify = insecure ∧
    (testTCPConfig serverName insecure tai).insecureSkipVerify = true ∧
    (testQUICConfig serverName insecure tai).insecureSkipVerify = true :=
  ⟨rfl, rfl, rfl⟩

/-- Claim C5: `isMTC` is total over every raw certificate byte string and
every behaviour of the two `asn1.Unmarshal` collaborator calls; it returns
`true` exactly when the outer certificate structure parses, the outer
signature-algorithm field parses as an `AlgorithmIdentifier`, and that
algorithm OID equals 1.3.6.1.4.1.44363.47.0; any parse failure therefore
yields `false`. -/
theorem isMTC_true_iff (unmarshalCert : List Nat → Option RawCertificate)
    (unmarshalAlgID : List Nat → Option AlgorithmIdentifier) (raw : List Nat) :
    isMTC unmarshalCert unmarshalAlgID raw = true ↔
      ∃ rawCert algID, unmarshalCert raw = some rawCert ∧
        unmarshalAlgID rawCert.signatureAlgorithm.fullBytes = some algID ∧
        algID.algorithm = oidMTCProof := by
  unfold isMTC
  cases h1 : unmarshalCert raw with
  | none => simp
  | some rawCert =>
    cases h2 : unmarshalAlgID rawCert.signatureAlgorithm.fullBytes with
    | none => simp [h2]
    | some algID => simp [h2, beq_iff_eq]

/-- Claim C6: `taisFromState` returns `none` exactly when the connection
state's trust-anchor-identifier list is nil, and otherwise returns the
non-nil list of the canonical string encodings of the peer's TAIs, in
order (the empty list when the peer negotiated but offered none). -/
theorem taisFromState_nil_distinction (state : ConnectionState) :
    taisFromState state = Option.map (List.map TAI.string) state.trustAnchorIdentifiers ∧
    (taisFromState state = none ↔ state.trustAnchorIdentifiers = none) := by
  unfold taisFromState
  cases h : state.trustAnchorIdentifiers with
  | none => simp
  | some ts => simp [foldl_append_string]

/-- Claim C7: the probe paths configure no deadline at all — `testTCP`
dials with `net.Dial` (no timeout) and calls `conn.Handshake()` with no
deadline set, and `testQUIC` dials under `context.Background()`, which
carries no deadline — so no overall deadline covering resolution, dial, and
handshake exists, contrary to the claim; a stalled peer stalls the probe. -/
theorem probes_configure_no_deadline :
    testTCPDeadlines = { dialTimeout := none, handshakeDeadline := none, contextDeadline := none } ∧
    testQUICDeadlines = { dialTimeout := none, handshakeDeadline := none, contextDeadline := none } :=
  ⟨rfl, rfl⟩

/-- Claim C8: folding the per-connection event sink over the handshake's
event trace records a Hello-Retry-Round exactly when an HRR event was
received, records as `kex` the group of the last negotiated-KEX event (the
zero value when there was none), and the plain (non-POST) request on the
same connection reports exactly those recorded values. -/
theorem eventHandler_records_hrr_and_kex (evs : List CFEvent) :
    ((Conn.processEvents {} evs).hrr = true ↔ CFEvent.hrr ∈ evs) ∧
    (Conn.processEvents {} evs).kex = ((evs.filterMap CFEvent.kexOf).getLast?).getD 0 ∧
    clientGET (Conn.processEvents {} evs) =
      { Kex := ((evs.filterMap CFEvent.kexOf).getLast?).getD 0,
        HRR := decide (CFEvent.hrr ∈ evs) } := by
  refine ⟨?_, ?_, ?_⟩
  · simpa using processEvents_hrr evs {}
  · simpa using processEvents_kex evs {}
  · have hk := processEvents_kex evs {}
    have hh := processEvents_hrr evs {}
    simp only [clientGET, PlainResponse.mk.injEq]
    constructor
    · simpa using hk
    · rcases hb : (Conn.processEvents {} evs).hrr with _ | _
      · simp [hb] at hh
        simp [decide_eq_false_iff_not]
        simpa using hh
      · simp [hb] at hh
        simp [decide_eq_true_eq]
        exact hh

/-- Claim C2: each of `testTCP` and `testQUIC` returns either a populated
outcome or an error, never both: when any step fails, the `Error` field is a
non-empty string headed by the failing stage's tag (`resolve`, `listen`,
`dial`, or `handshake`) and every outcome field keeps its zero value; and
`Error` is empty exactly when every network/handshake step succeeded. -/
theorem probe_result_error_xor_outcome (env : NetEnv) (remote serverName : String) (insecure : Bool) :
    (((testTCP env remote serverName insecure).Error = "" ∨
        ((testTCP env remote serverName insecure).Kex = 0 ∧
          (testTCP env remote serverName insecure).PQ = false ∧
          (testTCP env remote serverName insecure).TAIs = none ∧
          (testTCP env remote serverName insecure).MTC = false ∧
          (testTCP env remote serverName insecure).Error ≠ "" ∧
          stageTagged (testTCP env remote serverName insecure).Error)) ∧
      ((testTCP env remote serverName insecure).Error = "" ↔
        exceptOk (env.dialTCP remote) = true ∧
        exceptOk (env.handshakeTLS (testTCPConfig serverName insecure (getLatestTAI env.landmark))) = true)) ∧
    (((testQUIC env remote serverName insecure).Error = "" ∨
        ((testQUIC env remote serverName insecure).Kex = 0 ∧
          (testQUIC env remote serverName insecure).PQ = false ∧
          (testQUIC env remote serverName insecure).TAIs = none ∧
          (testQUIC env remote serverName insecure).MTC = false ∧
          (testQUIC env remote serverName insecure).Error ≠ "" ∧
          stageTagged (testQUIC env remote serverName insecure).Error)) ∧
      ((testQUIC env remote serverName insecure).Error = "" ↔
        exceptOk (env.resolveUDPAddr remote) = true ∧
        exceptOk env.listenUDP = true ∧
        exceptOk (env.dialQUIC (testQUICConfig serverName insecure (getLatestTAI env.landmark))) = true)) := by
  constructor
  · cases hd : env.dialTCP remote with
    | error e =>
      have ht : testTCP env remote serverName insecure = { Error := "dial: " ++ e } := by
        simp [testTCP, hd]
      rw [ht]
      refine ⟨Or.inr ⟨rfl, rfl, rfl, rfl, string_append_ne_empty _ _ (by decide),
        "dial", ": " ++ e, by simp, string_append_split "dial" ": " "dial: " e (by decide)⟩, ?_⟩
      constructor
      · intro h
        exact absurd h (string_append_ne_empty _ _ (by decide))
      · rintro ⟨h1, -⟩
        exact absurd h1 (by simp [exceptOk])
    | ok u =>
      cases hh : env.handshakeTLS (testTCPConfig serverName insecure (getLatestTAI env.landmark)) with
      | error e =>
        have ht : testTCP env remote serverName insecure = { Error := "handshake: " ++ e } := by
          simp [testTCP, hd, hh]
        rw [ht]
        refine ⟨Or.inr ⟨rfl, rfl, rfl, rfl, string_append_ne_empty _ _ (by decide),
          "handshake", ": " ++ e, by simp,
          string_append_split "handshake" ": " "handshake: " e (by decide)⟩, ?_⟩
        constructor
        · intro h
          exact absurd h (string_append_ne_empty _ _ (by decide))
        · rintro ⟨-, h2⟩
          exact absurd h2 (by simp [exceptOk])
      | ok state =>
        have hE : (testTCP env remote serverName insecure).Error = "" := by
          simp [testTCP, hd, hh]
        exact ⟨Or.inl hE, ⟨fun _ => ⟨rfl, rfl⟩, fun _ => hE⟩⟩
  · cases hr : env.resolveUDPAddr remote with
    | error e =>
      have ht : testQUIC env remote serverName insecure = { Error := "resolve: " ++ e } := by
        simp [testQUIC, hr]
      rw [ht]
      refine ⟨Or.inr ⟨rfl, rfl, rfl, rfl, string_append_ne_empty _ _ (by decide),
        "resolve", ": " ++ e, by simp, string_append_split "resolve" ": " "resolve: " e (by decide)⟩, ?_⟩
      constructor
      · intro h
        exact absurd h (string_append_ne_empty _ _ (by decide))
      · rintro ⟨h1, -⟩
        exact absurd h1 (by simp [exceptOk])
    | ok u =>
      cases hl : env.listenUDP with
      | error e =>
        have ht : testQUIC env remote serverName insecure = { Error := "listen udp: " ++ e } := by
          simp [testQUIC, hr, hl]
        rw [ht]
        refine ⟨Or.inr ⟨rfl, rfl, rfl, rfl, string_append_ne_empty _ _ (by decide),
          "listen", " udp: " ++ e, by simp,
          string_append_split "listen" " udp: " "listen udp: " e (by decide)⟩, ?_⟩
        constructor
        · intro h
          exact absurd h (string_append_ne_empty _ _ (by decide))
        · rintro ⟨-, h2, -⟩
          exact absurd h2 (by simp [exceptOk])
      | ok v =>
        cases hq : env.dialQUIC (testQUICConfig serverName insecure (getLatestTAI env.landmark)) with
        | error e =>
          have ht : testQUIC env remote serverName insecure = { Error := "dial: " ++ e } := by
            simp [testQUIC, hr, hl, hq]
          rw [ht]
          refine ⟨Or.inr ⟨rfl, rfl, rfl, rfl, string_append_ne_empty _ _ (by decide),
            "dial", ": " ++ e, by simp, string_append_split "dial" ": " "dial: " e (by decide)⟩, ?_⟩
          constructor
          · intro h
            exact absurd h (string_append_ne_empty _ _ (by decide))
          · rintro ⟨-, -, h3⟩
            exact absurd h3 (by simp [exceptOk])
        | ok state =>
          have hE : (testQUIC env remote serverName insecure).Error = "" := by
            simp [testQUIC, hr, hl, hq]
          exact ⟨Or.inl hE, ⟨fun _ => ⟨rfl, rfl, rfl⟩, fun _ => hE⟩⟩

/-- An environment in which every network and library call succeeds, used to
exercise the success path of the probes at a concrete input. -/
def sampleNetEnv : NetEnv :=
  { landmark := ⟨⟨[44363, 48, 7, 5]⟩⟩
    dialTCP := fun _ => .ok ()
    handshakeTLS := fun _ => .ok ⟨4588, some [], []⟩
    resolveUDPAddr := fun _ => .ok ()
    listenUDP := .ok ()
    dialQUIC := fun _ => .ok ⟨4588, some [], []⟩
    unmarshalCert := fun _ => none
    unmarshalAlgID := fun _ => none }

/-- Claim C2, witness: at a concrete all-successful environment both probes
return an empty `Error`. -/
theorem probe_result_error_xor_outcome_witness :
    (testTCP sampleNetEnv "example.com:443" "example.com" false).Error = "" ∧
    (testQUIC sampleNetEnv "example.com:443" "example.com" false).Error = "" := by
  have h := probe_result_error_xor_outcome sampleNetEnv "example.com:443" "example.com" false
  exact ⟨h.1.2.mpr ⟨rfl, rfl⟩, h.2.2.mpr ⟨rfl, rfl, rfl⟩⟩

/-- Claim C4, counterexample: the body `"42 x"` has a first line of exactly
two whitespace-separated fields whose second field is not numeric, yet the
refresh succeeds (`none` error) and replaces the stored latest-TAI with the
TAI derived from landmark index 42 — the second field is never parsed. -/
theorem fetchLandmark_second_field_unchecked :
    (fetchLandmark "42 x" ⟨⟨[1]⟩⟩).2 = none ∧
    (fetchLandmark "42 x" ⟨⟨[1]⟩⟩).1 = ⟨⟨[44363, 48, 7, 42]⟩⟩ ∧
    (fetchLandmark "42 x" ⟨⟨[1]⟩⟩).1 ≠ ⟨⟨[1]⟩⟩ := by
  refine ⟨?_, ?_, ?_⟩ <;> decide

/-- Claim C4 (amended): the refresh accepts a fetched body exactly when its
first line consists of exactly two whitespace-separated fields, the first of
which parses as an integer whose derived TAI text parses (the second field
is never validated); on every other input it returns an error and leaves the
stored latest-TAI unchanged, the stored value being replaced only after the
whole parse and TAI construction succeed. -/
theorem fetchLandmark_first_field_validated (body : String) (st : LandmarkState) :
    ((fetchLandmark body st).2 = none ∨ (fetchLandmark body st).1 = st) ∧
    ((fetchLandmark body st).2 = none ↔
      ((stringsFields (landmarkFirstLine body)).length = 2 ∧
        ∃ n tai, strconvAtoi ((stringsFields (landmarkFirstLine body)).headD "") = some n ∧
          TAI.unmarshalText (mtcBaseTAI ++ "." ++ toString n) = some tai ∧
          (fetchLandmark body st).1 = { latestTAI := tai })) := by
  by_cases hlen : (stringsFields (landmarkFirstLine body)).length = 2
  · rcases ha : strconvAtoi ((stringsFields (landmarkFirstLine body)).headD "") with - | n
    · have ht : fetchLandmark body st = (st, some "invalid last_landmark") := by
        simp only [fetchLandmark]
        rw [if_neg (not_not_intro hlen), ha]
      rw [ht]
      refine ⟨Or.inr rfl, ?_, ?_⟩
      · intro h
        simp at h
      · rintro ⟨-, m, tai, hm, -⟩
        cases hm
    · rcases hu : TAI.unmarshalText (mtcBaseTAI ++ "." ++ toString n) with - | tai
      · have ht : fetchLandmark body st =
            (st, some ("parsing TAI " ++ mtcBaseTAI ++ "." ++ toString n)) := by
          simp only [fetchLandmark]
          rw [if_neg (not_not_intro hlen), ha]
          dsimp only
          rw [hu]
        rw [ht]
        refine ⟨Or.inr rfl, ?_, ?_⟩
        · intro h
          simp at h
        · rintro ⟨-, m, tai2, hm, hum, -⟩
          cases hm
          rw [hu] at hum
          cases hum
      · have ht : fetchLandmark body st = ({ latestTAI := tai }, none) := by
          simp only [fetchLandmark]
          rw [if_neg (not_not_intro hlen), ha]
          dsimp only
          rw [hu]
        rw [ht]
        exact ⟨Or.inl rfl, fun _ => ⟨hlen, n, tai, rfl, hu, rfl⟩, fun _ => rfl⟩
  · have ht : fetchLandmark body st =
        (st, some ("invalid landmark header: " ++ landmarkFirstLine body)) := by
      simp only [fetchLandmark]
      rw [if_pos hlen]
    rw [ht]
    refine ⟨Or.inr rfl, ?_, ?_⟩
    · intro h
      simp at h
    · rintro ⟨h2, -⟩
      exact absurd h2 hlen

/-- Claim C9: the `method` form value selects between exactly two fixed
key-exchange-group orders — `supported` offers the classical-first order,
`preferred` and the absent (empty) value offer the PQ-first order — and any
other value makes the handler answer the `unknown method` input error, with
the handshake collaborator never consulted (the conclusion holds for every
`env.handshake`). -/
theorem method_selects_curve_order (env : ClientEnv) (remote servername host : String)
    (insecure : Bool) (m : String)
    (hsp : env.splitHostPort remote = .ok host)
    (hd : env.dialTCP remote = .ok ()) :
    selectCurves "supported" =
      some [X25519, CurveP256, CurveP384, X25519Kyber768Draft00, X25519MLKEM768] ∧
    selectCurves "preferred" =
      some [X25519MLKEM768, X25519Kyber768Draft00, X25519, CurveP256, CurveP384] ∧
    selectCurves "" =
      some [X25519MLKEM768, X25519Kyber768Draft00, X25519, CurveP256, CurveP384] ∧
    (m ≠ "supported" → m ≠ "preferred" → m ≠ "" →
      clientPOST env remote m servername insecure = .badRequest "unknown method") := by
  refine ⟨rfl, rfl, rfl, ?_⟩
  intro h1 h2 h3
  have hs : selectCurves m = none := by
    unfold selectCurves
    rw [if_neg h1, if_neg (by rintro (h | h) <;> contradiction)]
  simp [clientPOST, hsp, hd, hs]

/-- Claim C9, witness: a concrete request with method `bogus` against an
environment whose earlier steps succeed is answered `unknown method`. -/
theorem method_selects_curve_order_witness :
    clientPOST ⟨fun _ => .ok "h", fun _ => .ok (), fun _ => .ok []⟩ "h:443" "bogus" "" false =
      .badRequest "unknown method" := by
  have h := method_selects_curve_order ⟨fun _ => .ok "h", fun _ => .ok (), fun _ => .ok []⟩
    "h:443" "" "h" false "bogus" rfl rfl
  exact h.2.2.2 (by decide) (by decide) (by decide)

/-- Claim C10: both TAI-aware probes hand the TLS layer a trust-anchor list
that is exactly the one-element list holding the resolver's current
latest-TAI value, as read by `getLatestTAI` — never empty, never longer. -/
theorem probe_offers_exactly_one_tai (serverName : String) (insecure : Bool) (st : LandmarkState) :
    (testTCPConfig serverName insecure (getLatestTAI st)).trustAnchorIdentifiers = [getLatestTAI st] ∧
    (testQUICConfig serverName insecure (getLatestTAI st)).trustAnchorIdentifiers = [getLatestTAI st] ∧
    (testTCPConfig serverName insecure (getLatestTAI st)).trustAnchorIdentifiers.length = 1 ∧
    (testQUICConfig serverName insecure (getLatestTAI st)).trustAnchorIdentifiers.length = 1 :=
  ⟨rfl, rfl, rfl, rfl⟩
